import Mathlib

/-!
Shallow embedding of the Trading-Bot-Workflow repository (two Python scripts).

The main script (`trading-script (1).py`) defines a `DiscordNotifier` and a
`TradingBot` with methods `check_market_hours`, `execute_trade`,
`send_daily_summary` and `run`.  The second script (`trading-script.py`) is a
notifier-free variant whose `run` only checks market hours, fetches the
account and logs.

External calls (Alpaca REST, Discord webhook, log file) are modelled as an
explicit trace of `Effect`s; external failures (the order submission raising,
the trade-alert webhook call raising) are modelled by an `Env` oracle.
Python floats are modelled as `ℚ`; a Python `ZeroDivisionError` is modelled
by `Except`.
-/

namespace TradingBot

/-- A trade record as built by `execute_trade` (the `trade_info` dict). -/
structure TradeInfo where
  action : String
  symbol : String
  quantity : Nat
  price : ℚ
  total : ℚ
deriving DecidableEq, Repr

/-- The account snapshot returned by `api.get_account()`. -/
structure Account where
  equity : ℚ
  last_equity : ℚ
deriving DecidableEq, Repr

/-- The daily summary dict built by `send_daily_summary`. -/
structure Summary where
  date : String
  total_trades : Nat
  pnl : ℚ
  pnl_percentage : ℚ
  balance : ℚ
  win_rate : ℚ
deriving DecidableEq, Repr

/-- One observable side effect of the bot: a brokerage call, a Discord
webhook call, a log write, or a mutation of the in-memory trade list. -/
inductive Effect where
  | getClock : Effect
  | getAccount : Effect
  | submitOrder (symbol : String) (qty : Nat) (side ty tif : String) : Effect
  | sendTradeAlert (t : TradeInfo) : Effect
  | sendDailySummaryMsg (s : Summary) : Effect
  | sendErrorAlert (msg : String) : Effect
  | sendMessage (content : String) : Effect
  | appendTrade (t : TradeInfo) : Effect
  | logInfo (msg : String) : Effect
  | logError (msg : String) : Effect
deriving DecidableEq, Repr

/-- Whether an effect is an outbound error alert (`send_error_alert`). -/
def Effect.isErrorAlert : Effect → Bool
  | .sendErrorAlert _ => true
  | _ => false

/-- Whether an effect is the brokerage account fetch (`api.get_account()`). -/
def Effect.isGetAccount : Effect → Bool
  | .getAccount => true
  | _ => false

/-- Whether an effect is an order submission (`api.submit_order`). -/
def Effect.isSubmitOrder : Effect → Bool
  | .submitOrder _ _ _ _ _ => true
  | _ => false

/-- Whether an effect is the daily-summary webhook call. -/
def Effect.isSummaryMsg : Effect → Bool
  | .sendDailySummaryMsg _ => true
  | _ => false

/-- Python's `str.upper()` restricted to what the script needs. -/
def strUpper (s : String) : String :=
  String.mk (s.data.map Char.toUpper)

/-- Oracle for the external failures `execute_trade` can encounter:
`submitFails = some e` means `api.submit_order` raises an exception whose
string form is `e`; `tradeAlertFails = some e` means the Discord
`send_trade_alert` call raises `e`.  `none` means the call succeeds. -/
structure Env where
  submitFails : Option String
  tradeAlertFails : Option String
deriving DecidableEq, Repr

/-- The `trade_info` dict built by `execute_trade` after a successful order
submission (source lines 99–105): caller-supplied price, `total = price*qty`,
`action = side.upper()`. -/
def mkTradeInfo (symbol : String) (qty : Nat) (side : String) (price : ℚ) :
    TradeInfo :=
  { action := strUpper side
    symbol := symbol
    quantity := qty
    price := price
    total := price * qty }

/-- Outcome of one `execute_trade` call: the effect trace, the new value of
`self.daily_trades`, and the returned value or propagated exception. -/
structure ExecOutcome where
  trace : List Effect
  daily_trades : List TradeInfo
  result : Except String TradeInfo
deriving Repr

/-- `TradingBot.execute_trade(symbol, qty, side, price)`: submits a market
order with time-in-force gtc; on success builds `trade_info`, sends the
Discord trade alert, then appends to `self.daily_trades` and returns it.  On
any exception in the `try` block it sends one error alert
(`"Trade execution failed: ..."`) and re-raises. -/
def execute_trade (env : Env) (daily_trades : List TradeInfo)
    (symbol : String) (qty : Nat) (side : String) (price : ℚ) : ExecOutcome :=
  match env.submitFails with
  | some e =>
      { trace := [Effect.submitOrder symbol qty side "market" "gtc",
                  Effect.sendErrorAlert ("Trade execution failed: " ++ e)]
        daily_trades := daily_trades
        result := Except.error e }
  | none =>
      let trade_info := mkTradeInfo symbol qty side price
      match env.tradeAlertFails with
      | some e =>
          { trace := [Effect.submitOrder symbol qty side "market" "gtc",
                      Effect.sendTradeAlert trade_info,
                      Effect.sendErrorAlert ("Trade execution failed: " ++ e)]
            daily_trades := daily_trades
            result := Except.error e }
      | none =>
          { trace := [Effect.submitOrder symbol qty side "market" "gtc",
                      Effect.sendTradeAlert trade_info,
                      Effect.appendTrade trade_info]
            daily_trades := daily_trades ++ [trade_info]
            result := Except.ok trade_info }

/-- The win condition of the source's win-rate heuristic (lines 130–131):
a BUY trade whose price is below current equity, or a SELL trade whose price
is above current equity. -/
def isWinning (equity : ℚ) (trade : TradeInfo) : Bool :=
  (trade.action == "BUY" && trade.price < equity) ||
  (trade.action == "SELL" && trade.price > equity)

/-- `TradingBot.send_daily_summary()`: fetches the account, computes
`pnl = equity - last_equity`, `pnl_percentage = pnl / last_equity * 100`
(a `ZeroDivisionError` when `last_equity = 0`, modelled as `Except.error`),
counts winning trades with the heuristic, computes
`win_rate = winning / total * 100` guarded by `total_trades > 0`, and sends
the summary to Discord.  Returns the effects performed and the summary or
the raised error. -/
def send_daily_summary (account : Account) (daily_trades : List TradeInfo)
    (today : String) : List Effect × Except String Summary :=
  let total_trades := daily_trades.length
  let pnl := account.equity - account.last_equity
  if account.last_equity = 0 then
    ([Effect.getAccount], Except.error "float division by zero")
  else
    let pnl_percentage := pnl / account.last_equity * 100
    let winning_trades := (daily_trades.filter (isWinning account.equity)).length
    let win_rate : ℚ :=
      if total_trades > 0 then (winning_trades : ℚ) / (total_trades : ℚ) * 100 else 0
    let summary : Summary :=
      { date := today
        total_trades := total_trades
        pnl := pnl
        pnl_percentage := pnl_percentage
        balance := account.equity
        win_rate := win_rate }
    ([Effect.getAccount, Effect.sendDailySummaryMsg summary], Except.ok summary)

/-- Outcome of one `run()` call: effect trace, final `self.daily_trades`,
and normal return or propagated exception. -/
structure RunOutcome where
  trace : List Effect
  daily_trades : List TradeInfo
  result : Except String Unit
deriving Repr

/-- `TradingBot.run()`: checks market hours; if closed, sends the single
message `"Market is closed"` and returns.  Otherwise fetches the account,
sends the session-start message, runs the no-op strategy placeholder, and
calls `send_daily_summary`; any exception triggers one error alert and one
error log, then re-raises. -/
def run (is_open : Bool) (account : Account) (daily_trades : List TradeInfo)
    (today : String) : RunOutcome :=
  if is_open then
    let pre := [Effect.getClock, Effect.getAccount,
      Effect.sendMessage
        ("Trading session started\nCurrent balance: $" ++ toString account.equity)]
    match send_daily_summary account daily_trades today with
    | (tr, Except.ok _) =>
        { trace := pre ++ tr, daily_trades := daily_trades, result := Except.ok () }
    | (tr, Except.error e) =>
        { trace := pre ++ tr ++
            [Effect.sendErrorAlert ("Error in trading bot: " ++ e),
             Effect.logError ("Error in trading bot: " ++ e)]
          daily_trades := daily_trades
          result := Except.error e }
  else
    { trace := [Effect.getClock, Effect.sendMessage "Market is closed"]
      daily_trades := daily_trades
      result := Except.ok () }

/-- For ordering claims about `execute_trade`: scan the trace and report
which of `appendTrade t` / `sendTradeAlert t` occurs first
(`some true` = the append comes first, `some false` = the alert comes first,
`none` = neither occurs). -/
def appendFirst (t : TradeInfo) : List Effect → Option Bool
  | [] => none
  | Effect.appendTrade u :: rest =>
      if u = t then some true else appendFirst t rest
  | Effect.sendTradeAlert u :: rest =>
      if u = t then some false else appendFirst t rest
  | _ :: rest => appendFirst t rest

end TradingBot

namespace Script

open TradingBot in
/-- `TradingBot.run()` of the notifier-free variant (`trading-script.py`):
checks market hours; if closed, logs `"Market is closed"` and returns;
otherwise fetches the account and logs the balance.  No trade list, no
summary. -/
def run (is_open : Bool) (equity : ℚ) : List TradingBot.Effect :=
  if is_open then
    [TradingBot.Effect.getClock, TradingBot.Effect.getAccount,
     TradingBot.Effect.logInfo ("Current balance: $" ++ toString equity)]
  else
    [TradingBot.Effect.getClock, TradingBot.Effect.logInfo "Market is closed"]

end Script

namespace TradingBot

/-- C1: on an order-submission failure (the brokerage `submit_order` call
raises), `execute_trade` sends exactly one error alert, propagates the
failure to the caller, and leaves the in-memory trade list unchanged. -/
theorem execute_trade_submit_failure (env : Env) (trades : List TradeInfo)
    (symbol : String) (qty : Nat) (side : String) (price : ℚ) (e : String)
    (h : env.submitFails = some e) :
    (execute_trade env trades symbol qty side price).trace.countP
      Effect.isErrorAlert = 1 ∧
    (execute_trade env trades symbol qty side price).result = Except.error e ∧
    (execute_trade env trades symbol qty side price).daily_trades = trades := by
  unfold execute_trade
  rw [h]
  refine ⟨?_, rfl, rfl⟩
  rfl

/-- Witness for C1 at a concrete failing environment. -/
theorem execute_trade_submit_failure_witness :
    (execute_trade ⟨some "boom", none⟩ [] "AAPL" 10 "buy" 50).trace.countP
      Effect.isErrorAlert = 1 ∧
    (execute_trade ⟨some "boom", none⟩ [] "AAPL" 10 "buy" 50).result =
      Except.error "boom" ∧
    (execute_trade ⟨some "boom", none⟩ [] "AAPL" 10 "buy" 50).daily_trades = [] :=
  execute_trade_submit_failure ⟨some "boom", none⟩ [] "AAPL" 10 "buy" 50 "boom" rfl

/-- C3 counterexample: in the source, the Discord trade alert (line 108) is
sent before the append to `daily_trades` (line 111), so on a concrete
successful call the append does NOT precede the alert in the effect trace. -/
theorem append_before_alert_false :
    appendFirst (mkTradeInfo "AAPL" 10 "buy" 50)
      (execute_trade ⟨none, none⟩ [] "AAPL" 10 "buy" 50).trace ≠ some true := by
  simp [execute_trade, appendFirst]

/-- C3 amended: on every successful `execute_trade` call, the trade alert
precedes the append of the record to the in-memory trade list; the full
effect trace is submit, then alert, then append. -/
theorem alert_before_append (env : Env) (trades : List TradeInfo)
    (symbol : String) (qty : Nat) (side : String) (price : ℚ)
    (h1 : env.submitFails = none) (h2 : env.tradeAlertFails = none) :
    (execute_trade env trades symbol qty side price).trace =
      [Effect.submitOrder symbol qty side "market" "gtc",
       Effect.sendTradeAlert (mkTradeInfo symbol qty side price),
       Effect.appendTrade (mkTradeInfo symbol qty side price)] ∧
    appendFirst (mkTradeInfo symbol qty side price)
      (execute_trade env trades symbol qty side price).trace = some false := by
  unfold execute_trade
  rw [h1, h2]
  refine ⟨rfl, ?_⟩
  simp [appendFirst]

/-- Witness for the amended C3 at a concrete successful call. -/
theorem alert_before_append_witness :
    (execute_trade ⟨none, none⟩ [] "AAPL" 10 "buy" 50).trace =
      [Effect.submitOrder "AAPL" 10 "buy" "market" "gtc",
       Effect.sendTradeAlert (mkTradeInfo "AAPL" 10 "buy" 50),
       Effect.appendTrade (mkTradeInfo "AAPL" 10 "buy" 50)] ∧
    appendFirst (mkTradeInfo "AAPL" 10 "buy" 50)
      (execute_trade ⟨none, none⟩ [] "AAPL" 10 "buy" 50).trace = some false :=
  alert_before_append ⟨none, none⟩ [] "AAPL" 10 "buy" 50 rfl rfl

/-- C6: the record built by `execute_trade` has `total = price × quantity`
with the caller-supplied price, `quantity = qty`, the supplied symbol, and
the uppercased side as action; a fully successful call returns exactly this
record. -/
theorem trade_record_fields (trades : List TradeInfo) (symbol : String)
    (qty : Nat) (side : String) (price : ℚ) :
    (mkTradeInfo symbol qty side price).total =
      (mkTradeInfo symbol qty side price).price *
        ((mkTradeInfo symbol qty side price).quantity : ℚ) ∧
    (mkTradeInfo symbol qty side price).price = price ∧
    (mkTradeInfo symbol qty side price).quantity = qty ∧
    (mkTradeInfo symbol qty side price).symbol = symbol ∧
    (mkTradeInfo symbol qty side price).action = strUpper side ∧
    (execute_trade ⟨none, none⟩ trades symbol qty side price).result =
      Except.ok (mkTradeInfo symbol qty side price) :=
  ⟨rfl, rfl, rfl, rfl, rfl, rfl⟩

end TradingBot

namespace TradingBot

/-- Helper: `run` never changes the in-memory trade list (the strategy step
is a no-op placeholder and `send_daily_summary` only reads the list). -/
theorem run_trades_unchanged (is_open : Bool) (account : Account)
    (trades : List TradeInfo) (today : String) :
    (run is_open account trades today).daily_trades = trades := by
  unfold run
  split
  · split <;> rfl
  · rfl

/-- C5: when the market-hours check reports closed, `run` emits exactly the
clock query and one `"Market is closed"` message — no account fetch, no
order submission, no daily summary — leaves the trade list unchanged and
returns normally; the notifier-free script variant likewise only logs
`"Market is closed"`. -/
theorem run_market_closed (is_open : Bool) (account : Account)
    (trades : List TradeInfo) (today : String) (equity : ℚ)
    (h : is_open = false) :
    (run is_open account trades today).trace =
      [Effect.getClock, Effect.sendMessage "Market is closed"] ∧
    (run is_open account trades today).trace.count
      (Effect.sendMessage "Market is closed") = 1 ∧
    (run is_open account trades today).trace.countP Effect.isGetAccount = 0 ∧
    (run is_open account trades today).trace.countP Effect.isSubmitOrder = 0 ∧
    (run is_open account trades today).trace.countP Effect.isSummaryMsg = 0 ∧
    (run is_open account trades today).daily_trades = trades ∧
    (run is_open account trades today).result = Except.ok () ∧
    Script.run is_open equity =
      [Effect.getClock, Effect.logInfo "Market is closed"] := by
  subst h
  refine ⟨rfl, ?_, ?_, ?_, ?_, rfl, rfl, rfl⟩ <;> rfl

/-- Witness for C5 at a concrete closed-market state. -/
theorem run_market_closed_witness :
    (run false ⟨10500, 10000⟩ [] "2026-10-12").trace =
      [Effect.getClock, Effect.sendMessage "Market is closed"] ∧
    (run false ⟨10500, 10000⟩ [] "2026-10-12").trace.count
      (Effect.sendMessage "Market is closed") = 1 ∧
    (run false ⟨10500, 10000⟩ [] "2026-10-12").trace.countP
      Effect.isGetAccount = 0 ∧
    (run false ⟨10500, 10000⟩ [] "2026-10-12").trace.countP
      Effect.isSubmitOrder = 0 ∧
    (run false ⟨10500, 10000⟩ [] "2026-10-12").trace.countP
      Effect.isSummaryMsg = 0 ∧
    (run false ⟨10500, 10000⟩ [] "2026-10-12").daily_trades = [] ∧
    (run false ⟨10500, 10000⟩ [] "2026-10-12").result = Except.ok () ∧
    Script.run false 10500 =
      [Effect.getClock, Effect.logInfo "Market is closed"] :=
  run_market_closed false ⟨10500, 10000⟩ [] "2026-10-12" 10500 rfl

/-- C2: a trade counts as winning iff it is a BUY with price strictly below
current equity or a SELL with price strictly above current equity, and the
computed `win_rate` is winning trades over total trades times 100. -/
theorem daily_summary_win_rate (equity : ℚ) (t : TradeInfo)
    (account : Account) (trades : List TradeInfo) (today : String)
    (h : account.last_equity ≠ 0) (h2 : 0 < trades.length) :
    (isWinning equity t = true ↔
      (t.action = "BUY" ∧ t.price < equity) ∨
      (t.action = "SELL" ∧ t.price > equity)) ∧
    ∃ s : Summary, (send_daily_summary account trades today).2 = Except.ok s ∧
      s.win_rate =
        ((trades.countP (isWinning account.equity) : ℚ) /
          (trades.length : ℚ)) * 100 := by
  constructor
  · simp only [isWinning, Bool.or_eq_true, Bool.and_eq_true, beq_iff_eq,
      decide_eq_true_eq, gt_iff_lt]
  · have hs : (send_daily_summary account trades today).2 =
        Except.ok
          { date := today
            total_trades := trades.length
            pnl := account.equity - account.last_equity
            pnl_percentage := (account.equity - account.last_equity) /
              account.last_equity * 100
            balance := account.equity
            win_rate := if trades.length > 0 then
              (((trades.filter (isWinning account.equity)).length : ℚ) /
                (trades.length : ℚ)) * 100 else 0 } := by
      simp only [send_daily_summary, if_neg h]
    refine ⟨_, hs, ?_⟩
    simp only [if_pos h2, List.countP_eq_length_filter]

/-- Witness for C2 at a concrete account and single winning BUY trade. -/
theorem daily_summary_win_rate_witness :
    (isWinning 10500 (mkTradeInfo "AAPL" 10 "buy" 50) = true ↔
      ((mkTradeInfo "AAPL" 10 "buy" 50).action = "BUY" ∧
        (mkTradeInfo "AAPL" 10 "buy" 50).price < 10500) ∨
      ((mkTradeInfo "AAPL" 10 "buy" 50).action = "SELL" ∧
        (mkTradeInfo "AAPL" 10 "buy" 50).price > 10500)) ∧
    ∃ s : Summary,
      (send_daily_summary ⟨10500, 10000⟩ [mkTradeInfo "AAPL" 10 "buy" 50]
        "2026-10-12").2 = Except.ok s ∧
      s.win_rate =
        (([mkTradeInfo "AAPL" 10 "buy" 50].countP (isWinning 10500) : ℚ) /
          (([mkTradeInfo "AAPL" 10 "buy" 50] :
            List TradeInfo).length : ℚ)) * 100 :=
  daily_summary_win_rate 10500 (mkTradeInfo "AAPL" 10 "buy" 50)
    ⟨10500, 10000⟩ [mkTradeInfo "AAPL" 10 "buy" 50] "2026-10-12"
    (by norm_num) (by decide)

end TradingBot

namespace TradingBot

/-- C4: `send_daily_summary` derives `pnl = equity − last_equity` and
`pnl_percentage = pnl / last_equity × 100` from the fetched snapshot; this
succeeds for every snapshot with `last_equity ≠ 0`, and the unguarded
division raises at `last_equity = 0`. -/
theorem daily_summary_pnl (account : Account) (trades : List TradeInfo)
    (today : String) :
    (account.last_equity ≠ 0 →
      ∃ s : Summary, (send_daily_summary account trades today).2 =
          Except.ok s ∧
        s.pnl = account.equity - account.last_equity ∧
        s.pnl_percentage =
          (account.equity - account.last_equity) / account.last_equity * 100) ∧
    (account.last_equity = 0 →
      (send_daily_summary account trades today).2 =
        Except.error "float division by zero") := by
  constructor
  · intro h
    have hs : (send_daily_summary account trades today).2 =
        Except.ok
          { date := today
            total_trades := trades.length
            pnl := account.equity - account.last_equity
            pnl_percentage := (account.equity - account.last_equity) /
              account.last_equity * 100
            balance := account.equity
            win_rate := if trades.length > 0 then
              (((trades.filter (isWinning account.equity)).length : ℚ) /
                (trades.length : ℚ)) * 100 else 0 } := by
      simp only [send_daily_summary, if_neg h]
    exact ⟨_, hs, rfl, rfl⟩
  · intro h
    simp only [send_daily_summary, if_pos h]

/-- Witness for C4: both branches at concrete snapshots. -/
theorem daily_summary_pnl_witness :
    (∃ s : Summary,
      (send_daily_summary ⟨10500, 10000⟩ [] "2026-10-12").2 = Except.ok s ∧
      s.pnl = (10500 : ℚ) - 10000 ∧
      s.pnl_percentage = ((10500 : ℚ) - 10000) / 10000 * 100) ∧
    (send_daily_summary ⟨10500, 0⟩ [] "2026-10-12").2 =
      Except.error "float division by zero" :=
  ⟨(daily_summary_pnl ⟨10500, 10000⟩ [] "2026-10-12").1 (by norm_num),
   (daily_summary_pnl ⟨10500, 0⟩ [] "2026-10-12").2 rfl⟩

/-- C7: in the concrete scenario with equity 10500, last equity 10000 and a
single successfully executed BUY of 10 shares at price 50, the trade's total
is 500, and the daily summary has pnl 500 and pnl percentage 5. -/
theorem end_to_end_scenario :
    (execute_trade ⟨none, none⟩ [] "AAPL" 10 "buy" 50).daily_trades =
      [mkTradeInfo "AAPL" 10 "buy" 50] ∧
    (mkTradeInfo "AAPL" 10 "buy" 50).total = 500 ∧
    ((send_daily_summary ⟨10500, 10000⟩ [mkTradeInfo "AAPL" 10 "buy" 50]
        "2026-10-12").2).map Summary.pnl = Except.ok 500 ∧
    ((send_daily_summary ⟨10500, 10000⟩ [mkTradeInfo "AAPL" 10 "buy" 50]
        "2026-10-12").2).map Summary.pnl_percentage = Except.ok 5 := by
  have h0 : ((⟨10500, 10000⟩ : Account)).last_equity ≠ 0 := by norm_num
  refine ⟨rfl, ?_, ?_, ?_⟩
  · show (50 : ℚ) * ((10 : Nat) : ℚ) = 500
    norm_num
  · simp only [send_daily_summary, if_neg h0, Except.map, Except.ok.injEq]
    norm_num
  · simp only [send_daily_summary, if_neg h0, Except.map, Except.ok.injEq]
    norm_num

/-- C8: the trade list is append-only: `execute_trade` either leaves it
unchanged or appends exactly one record at the end, and `run` (whose
strategy step is a no-op and whose summary only reads the list) leaves it
unchanged. -/
theorem trade_list_append_only (env : Env) (trades : List TradeInfo)
    (symbol : String) (qty : Nat) (side : String) (price : ℚ)
    (is_open : Bool) (account : Account) (today : String) :
    ((execute_trade env trades symbol qty side price).daily_trades = trades ∨
      (execute_trade env trades symbol qty side price).daily_trades =
        trades ++ [mkTradeInfo symbol qty side price]) ∧
    (run is_open account trades today).daily_trades = trades := by
  refine ⟨?_, run_trades_unchanged is_open account trades today⟩
  rcases env with ⟨sf, af⟩
  cases sf
  · cases af
    · exact Or.inr rfl
    · exact Or.inl rfl
  · exact Or.inl rfl

/-- C9: when the order submission succeeds but the trade-alert notification
fails, `execute_trade` sends one error alert, propagates the exception, and
does NOT append the trade — so a submitted order is absent from the ledger
and from any daily summary computed over it. -/
theorem execute_trade_alert_failure (env : Env) (trades : List TradeInfo)
    (symbol : String) (qty : Nat) (side : String) (price : ℚ) (e : String)
    (account : Account) (today : String)
    (h1 : env.submitFails = none) (h2 : env.tradeAlertFails = some e) :
    (execute_trade env trades symbol qty side price).trace =
      [Effect.submitOrder symbol qty side "market" "gtc",
       Effect.sendTradeAlert (mkTradeInfo symbol qty side price),
       Effect.sendErrorAlert ("Trade execution failed: " ++ e)] ∧
    (execute_trade env trades symbol qty side price).trace.countP
      Effect.isErrorAlert = 1 ∧
    (execute_trade env trades symbol qty side price).result =
      Except.error e ∧
    (execute_trade env trades symbol qty side price).daily_trades = trades ∧
    send_daily_summary account
      (execute_trade env trades symbol qty side price).daily_trades today =
      send_daily_summary account trades today := by
  unfold execute_trade
  rw [h1, h2]
  exact ⟨rfl, rfl, rfl, rfl, rfl⟩

/-- Witness for C9 at a concrete failing notification. -/
theorem execute_trade_alert_failure_witness :
    (execute_trade ⟨none, some "down"⟩ [] "AAPL" 10 "buy" 50).trace =
      [Effect.submitOrder "AAPL" 10 "buy" "market" "gtc",
       Effect.sendTradeAlert (mkTradeInfo "AAPL" 10 "buy" 50),
       Effect.sendErrorAlert ("Trade execution failed: " ++ "down")] ∧
    (execute_trade ⟨none, some "down"⟩ [] "AAPL" 10 "buy" 50).trace.countP
      Effect.isErrorAlert = 1 ∧
    (execute_trade ⟨none, some "down"⟩ [] "AAPL" 10 "buy" 50).result =
      Except.error "down" ∧
    (execute_trade ⟨none, some "down"⟩ [] "AAPL" 10 "buy" 50).daily_trades =
      [] ∧
    send_daily_summary ⟨10500, 10000⟩
      (execute_trade ⟨none, some "down"⟩ [] "AAPL" 10 "buy" 50).daily_trades
      "2026-10-12" =
      send_daily_summary ⟨10500, 10000⟩ [] "2026-10-12" :=
  execute_trade_alert_failure ⟨none, some "down"⟩ [] "AAPL" 10 "buy" 50
    "down" ⟨10500, 10000⟩ "2026-10-12" rfl rfl

/-- C10: over an empty trade list the win rate is 0: the division by
`total_trades` is guarded by the `total_trades > 0` check, so the win-rate
computation never divides by zero. -/
theorem empty_trades_win_rate_zero (account : Account) (today : String)
    (h : account.last_equity ≠ 0) :
    ((send_daily_summary account [] today).2).map Summary.win_rate =
      Except.ok 0 := by
  simp only [send_daily_summary, if_neg h]
  rfl

/-- Witness for C10 at a concrete account. -/
theorem empty_trades_win_rate_zero_witness :
    ((send_daily_summary ⟨10500, 10000⟩ [] "2026-10-12").2).map
      Summary.win_rate = Except.ok 0 :=
  empty_trades_win_rate_zero ⟨10500, 10000⟩ "2026-10-12" (by norm_num)

end TradingBot
